import Mathlib

/-!
Shallow embedding of `honeybee_3dm/togeometry.py`: conversion of Rhino3dm
geometry (breps, extrusions, meshes) to Ladybug `Face3D` polygon lists.

Machine reals are modelled as rationals.  Python exceptions are modelled with
`Except PyErr`; the process-wide warning channel is modelled as a list of
`ConvWarning` values returned alongside the result where the source emits
warnings.  External collaborators (the `rhino3dm` reader and the
`ladybug_geometry` primitive library) are modelled from the spec: points carry
exact structural equality (Python `==`) plus a tolerance-based `is_equivalent`
test, and `Polyline3D.join_segments` is an uninterpreted function parameter.
-/

/-- Python exceptions that the translated code can raise. -/
inductive PyErr where
  | valueError
  | attributeError
  | indexError
deriving DecidableEq, Repr

instance {ε α : Type _} [DecidableEq ε] [DecidableEq α] : DecidableEq (Except ε α) := fun x y =>
  match x, y with
  | .ok a, .ok b =>
    if h : a = b then isTrue (by rw [h]) else isFalse (by simp [h])
  | .ok _, .error _ => isFalse (by simp)
  | .error _, .ok _ => isFalse (by simp)
  | .error e, .error f =>
    if h : e = f then isTrue (by rw [h]) else isFalse (by simp [h])

/-- A rhino3dm point, with upper-case coordinate accessors as in the source. -/
structure RhinoPoint where
  X : ℚ
  Y : ℚ
  Z : ℚ
deriving DecidableEq, Repr, Inhabited

/-- Modelled from the spec: a Ladybug `Point3D` value — three real-valued
coordinates, immutable; Python `==` on it is exact coordinate equality. -/
structure Point3 where
  x : ℚ
  y : ℚ
  z : ℚ
deriving DecidableEq, Repr, Inhabited

/-- `to_point3d`: build a Ladybug point from a rhino3dm point. -/
def to_point3d (point : RhinoPoint) : Point3 :=
  ⟨point.X, point.Y, point.Z⟩

/-- The absolute value of a rational, written so that it evaluates by kernel
reduction. -/
def ratAbs (q : ℚ) : ℚ :=
  if q < 0 then -q else q

/-- The difference of two rationals, written so that it evaluates by kernel
reduction (the library subtraction is irreducible). -/
def ratSub (a b : ℚ) : ℚ :=
  mkRat (a.num * b.den - b.num * a.den) (a.den * b.den)

/-- Modelled from the spec: `Point3D.is_equivalent` of the external geometry
library — tolerance-based point equality, each coordinate differing by at
most the tolerance. -/
def Point3.is_equivalent (p other : Point3) (tolerance : ℚ) : Bool :=
  ratAbs (ratSub p.x other.x) ≤ tolerance ∧ ratAbs (ratSub p.y other.y) ≤ tolerance ∧
    ratAbs (ratSub p.z other.z) ≤ tolerance

/-- `remove_dup_vertices`: keep each point whose predecessor (Python index
`i - 1`, so index `0` is compared with the last element) is not
tolerance-equivalent to it. -/
def remove_dup_vertices (vertices : List Point3) (tolerance : ℚ) : List Point3 :=
  vertices.enum.filterMap fun ip =>
    if ip.2.is_equivalent
        (vertices.getD ((ip.1 + vertices.length - 1) % vertices.length) default)
        tolerance
    then none else some ip.2

/-- A rhino3dm mesh: a vertex array and face records of vertex indices
(arity 3 or 4 in well-formed meshes). -/
structure Mesh where
  Vertices : List RhinoPoint
  Faces : List (List Nat)
deriving DecidableEq, Repr, Inhabited

/-- A Ladybug `Face3D`: a boundary ring plus hole rings (empty for faces made
by the mesh path). -/
structure Face3D where
  boundary : List Point3
  holes : List (List Point3)
deriving DecidableEq, Repr, Inhabited

/-- Python list indexing on a non-negative index: `IndexError` out of range. -/
def pyGet (l : List α) (i : Nat) : Except PyErr α :=
  match l.get? i with
  | some a => .ok a
  | none => .error .indexError

/-- `pts[face[k]]`: index into the face record, then into the vertex list. -/
def pyGetAt (pts : List Point3) (face : List Nat) (k : Nat) : Except PyErr Point3 := do
  let i ← pyGet face k
  pyGet pts i

/-- The vertex tuple of one mesh face record: four vertices when the record
has length 4, otherwise its first three vertices. -/
def face_verts (pts : List Point3) (face : List Nat) : Except PyErr (List Point3) :=
  if face.length = 4 then do
    let v0 ← pyGetAt pts face 0
    let v1 ← pyGetAt pts face 1
    let v2 ← pyGetAt pts face 2
    let v3 ← pyGetAt pts face 3
    pure [v0, v1, v2, v3]
  else do
    let v0 ← pyGetAt pts face 0
    let v1 ← pyGetAt pts face 1
    let v2 ← pyGetAt pts face 2
    pure [v0, v1, v2]

/-- The loop body of `mesh_to_face3d` over the face records. -/
def mesh_faces_to_face3d (pts : List Point3) : List (List Nat) → Except PyErr (List Face3D)
  | [] => .ok []
  | face :: rest => do
    let verts ← face_verts pts face
    let others ← mesh_faces_to_face3d pts rest
    pure (Face3D.mk verts [] :: others)

/-- `mesh_to_face3d`: one hole-free polygon per mesh face record. -/
def mesh_to_face3d (mesh : Mesh) : Except PyErr (List Face3D) :=
  mesh_faces_to_face3d (mesh.Vertices.map to_point3d) mesh.Faces

/-- A rhino3dm brep edge: the kernel's linearity report at a tolerance, and
the edge's end points. -/
structure BrepEdge where
  IsLinear : ℚ → Bool
  PointAtStart : RhinoPoint
  PointAtEnd : RhinoPoint

/-- A rhino3dm brep face: `GetMesh(MeshType.Any)` yields `None` (no
tessellation) or a mesh. -/
structure BrepFace where
  GetMesh : Option Mesh

/-- A rhino3dm brep: its edge list and face list. -/
structure Brep where
  Edges : List BrepEdge
  Faces : List BrepFace

/-- The loop of `brep_to_face3d` over the brep faces: mesh each face and
concatenate.  A `None` mesh raises `AttributeError` (Python accesses
`mesh.Vertices` on `None`). -/
def brep_faces_to_face3d : List BrepFace → Except PyErr (List Face3D)
  | [] => .ok []
  | bf :: rest =>
    match bf.GetMesh with
    | none => .error .attributeError
    | some mesh => do
      let fs ← mesh_to_face3d mesh
      let others ← brep_faces_to_face3d rest
      pure (fs ++ others)

/-- `brep_to_face3d`: mesh every brep face and concatenate the polygons. -/
def brep_to_face3d (brep : Brep) : Except PyErr (List Face3D) :=
  brep_faces_to_face3d brep.Faces

/-- The loop of `solid_to_face3d` over the brep faces (the source duplicates
the body of `brep_to_face3d` verbatim). -/
def solid_faces_to_face3d : List BrepFace → Except PyErr (List Face3D)
  | [] => .ok []
  | bf :: rest =>
    match bf.GetMesh with
    | none => .error .attributeError
    | some mesh => do
      let fs ← mesh_to_face3d mesh
      let others ← solid_faces_to_face3d rest
      pure (fs ++ others)

/-- `solid_to_face3d`: mesh every face of a solid brep and concatenate. -/
def solid_to_face3d (brep : Brep) : Except PyErr (List Face3D) :=
  solid_faces_to_face3d brep.Faces

/-- A Ladybug `LineSegment3D` made from two end points. -/
structure LineSegment3D where
  p1 : Point3
  p2 : Point3
deriving DecidableEq, Repr

/-- `LineSegment3D.from_end_points`: a segment from a start to an end point. -/
def LineSegment3D.from_end_points (p q : Point3) : LineSegment3D :=
  ⟨p, q⟩

/-- Modelled from the spec: a Ladybug `Polyline3D` — an ordered vertex
sequence together with its derived scalar `length` (the perimeter reported by
the external geometry library). -/
structure Polyline3D where
  vertices : List Point3
  length : ℚ
deriving DecidableEq, Repr

instance : Inhabited Polyline3D := ⟨⟨[], 0⟩⟩

/-- The sort key of the boundary/hole separation: compare polylines by
`length` (Python `sorted(polylines, key=lambda polyline: polyline.length)`). -/
def lenLE (a b : Polyline3D) : Prop :=
  a.length ≤ b.length

instance : DecidableRel lenLE := fun a b => inferInstanceAs (Decidable (a.length ≤ b.length))

instance : IsTotal Polyline3D lenLE := ⟨fun a b => le_total a.length b.length⟩

instance : IsTrans Polyline3D lenLE := ⟨fun _ _ _ h h2 => le_trans h h2⟩

/-- The boundary/hole separation step of `brep2d_to_face3d`: a stable
ascending sort of the polylines by length, then reversal, so the longest
polyline comes first (the boundary) and the rest follow (the holes). -/
def separate_polylines (polylines : List Polyline3D) : List Polyline3D :=
  (polylines.insertionSort lenLE).reverse

/-- The Ladybug lines built from the start and end points of the brep edges. -/
def linesOf (brep : Brep) : List LineSegment3D :=
  brep.Edges.map fun e =>
    LineSegment3D.from_end_points (to_point3d e.PointAtStart) (to_point3d e.PointAtEnd)

/-- The type of the external `Polyline3D.join_segments` routine, taken as a
parameter of the embedding: it joins line segments into polylines at a
tolerance. -/
abbrev JoinSegments := List LineSegment3D → ℚ → List Polyline3D

/-- The `sorted_polylines` list of `brep2d_to_face3d`: the joined polylines
after the boundary/hole separation. -/
def sortedPolylinesOf (join : JoinSegments) (brep : Brep) (tolerance : ℚ) : List Polyline3D :=
  separate_polylines (join (linesOf brep) tolerance)

/-- The `boundary_pts` list of `brep2d_to_face3d`: the deduplicated vertices
of the first (longest) polyline. -/
def boundaryPtsOf (join : JoinSegments) (brep : Brep) (tolerance : ℚ) : List Point3 :=
  remove_dup_vertices (sortedPolylinesOf join brep tolerance).headI.vertices tolerance

/-- The `hole_pts` list of `brep2d_to_face3d`: the deduplicated vertex lists
of all polylines after the first. -/
def holePtsOf (join : JoinSegments) (brep : Brep) (tolerance : ℚ) : List (List Point3) :=
  ((sortedPolylinesOf join brep tolerance).drop 1).map fun polyline =>
    remove_dup_vertices polyline.vertices tolerance

/-- The `total_hole_pts` list of `brep2d_to_face3d`: all hole vertices,
flattened. -/
def totalHolePtsOf (join : JoinSegments) (brep : Brep) (tolerance : ℚ) : List Point3 :=
  (holePtsOf join brep tolerance).flatten

/-- The `hole_pts_on_boundary` list of `brep2d_to_face3d`: the hole vertices
that are members of the boundary list (Python `in`, exact equality). -/
def holePtsOnBoundaryOf (join : JoinSegments) (brep : Brep) (tolerance : ℚ) : List Point3 :=
  (totalHolePtsOf join brep tolerance).filter fun pts =>
    decide (pts ∈ boundaryPtsOf join brep tolerance)

/-- The geometry kinds a rhino3dm object can report. -/
inductive ObjectType where
  | Brep
  | Extrusion
  | Mesh
  | Point
  | Curve
  | Light
deriving DecidableEq, Repr

/-- The warnings the source emits on its diagnostic channel. -/
inductive ConvWarning where
  | curvedEdges
  | nonPlanarIgnored
  | holesTouchBoundary
  | unsupportedType (t : ObjectType)
deriving DecidableEq, Repr

/-- `brep2d_to_face3d`: planar reconstruction of an open brep.  Returns the
emitted warnings together with the result (or the uncaught exception). -/
def brep2d_to_face3d (join : JoinSegments) (brep : Brep) (tolerance : ℚ) :
    List ConvWarning × Except PyErr (List Face3D) :=
  let not_line := brep.Edges.countP fun e => decide (e.IsLinear tolerance = false)
  if not_line > 0 then
    ([.curvedEdges], brep_to_face3d brep)
  else
    let sorted_polylines := sortedPolylinesOf join brep tolerance
    match brep.Faces.get? 0 with
    | none => ([], .error .indexError)
    | some face0 =>
      match face0.GetMesh with
      | none => ([.nonPlanarIgnored], .ok [])
      | some mesh =>
        let mesh_pts := mesh.Vertices.map to_point3d
        if sorted_polylines.length = 1 then
          if mesh_pts.length = 4 ∨ mesh_pts.length = 3 then
            ([], mesh_to_face3d mesh)
          else
            ([], .ok [Face3D.mk (boundaryPtsOf join brep tolerance) []])
        else if sorted_polylines.length > 1 then
          if (holePtsOnBoundaryOf join brep tolerance).length > 0 then
            ([.holesTouchBoundary], brep_to_face3d brep)
          else
            ([], .ok [Face3D.mk (boundaryPtsOf join brep tolerance)
                        (holePtsOf join brep tolerance)])
        else ([], .ok [])

/-- A rhino3dm extrusion: its `GetMesh(MeshType.Any)` tessellation. -/
structure Extrusion where
  GetMesh : Option Mesh

/-- `extrusion_to_face3d`: mesh the extrusion (a `None` mesh raises
`AttributeError` inside `mesh_to_face3d`). -/
def extrusion_to_face3d (extrusion : Extrusion) : Except PyErr (List Face3D) :=
  match extrusion.GetMesh with
  | none => .error .attributeError
  | some m => mesh_to_face3d m

/-- A rhino3dm geometry payload, as the closed tagged union over the kinds
the dispatcher distinguishes. -/
inductive RhGeometry where
  | brep (b : Brep) (isSolid : Bool)
  | extrusion (e : Extrusion)
  | mesh (m : Mesh)
  | point
  | curve
  | light

/-- The `ObjectType` a geometry value reports. -/
def RhGeometry.ObjectType : RhGeometry → ObjectType
  | .brep _ _ => .Brep
  | .extrusion _ => .Extrusion
  | .mesh _ => .Mesh
  | .point => .Point
  | .curve => .Curve
  | .light => .Light

/-- A rhino3dm file object wrapping a geometry. -/
structure RhObject where
  Geometry : RhGeometry

/-- The geometry kinds `to_face3d` supports. -/
def SupportedKind (t : ObjectType) : Bool :=
  decide (t = .Brep) || decide (t = .Extrusion) || decide (t = .Mesh)

/-- `to_face3d`: the top-level dispatcher over the geometry kind.  Solid
breps are meshed, open breps go through planar reconstruction, extrusions
and meshes are meshed, and any other kind raises `ValueError` when
`raise_exception` is true or warns and yields the empty list otherwise. -/
def to_face3d (join : JoinSegments) (obj : RhObject) (tolerance : ℚ)
    (raise_exception : Bool := true) : List ConvWarning × Except PyErr (List Face3D) :=
  match obj.Geometry with
  | .brep b isSolid =>
    if isSolid then ([], solid_to_face3d b) else brep2d_to_face3d join b tolerance
  | .extrusion e => ([], extrusion_to_face3d e)
  | .mesh m => ([], mesh_to_face3d m)
  | g => if raise_exception then ([], .error .valueError)
         else ([.unsupportedType g.ObjectType], .ok [])

/-- A mesh is well formed when it has at least one face record, every record
has arity 3 or 4, and every referenced vertex index is in range (spec §3
`MeshFace` and §6 input contract). -/
def WellFormedMesh (m : Mesh) : Bool :=
  !m.Faces.isEmpty &&
    m.Faces.all fun fr =>
      (decide (fr.length = 3) || decide (fr.length = 4)) &&
        fr.all fun i => decide (i < m.Vertices.length)

/-- A planar brep input is well formed when it has at least one face, every
face carries a well-formed tessellation, and polyline assembly yields at
least one polyline (spec §4.7: a well-formed planar surface). -/
def WellFormedPlanarBrep (join : JoinSegments) (brep : Brep) (tolerance : ℚ) : Bool :=
  !brep.Faces.isEmpty &&
    brep.Faces.all (fun bf =>
      match bf.GetMesh with
      | some m => WellFormedMesh m
      | none => false) &&
    !(join (linesOf brep) tolerance).isEmpty

/-! ### Concrete inputs used by witnesses and counterexamples -/

/-- The closed ring of an axis-aligned square with corners `(a, a)` and
`(b, b)` in the plane `z = 0` (first vertex repeated at the end, as the
external polyline joiner produces for closed loops). -/
def sqRing (a b : ℚ) : List Point3 :=
  [⟨a, a, 0⟩, ⟨b, a, 0⟩, ⟨b, b, 0⟩, ⟨a, b, 0⟩, ⟨a, a, 0⟩]

/-- A brep edge whose kernel linearity report is `true` at every tolerance. -/
def linEdge (p q : RhinoPoint) : BrepEdge :=
  ⟨fun _ => true, p, q⟩

/-- The four linear edges of the square with corners `(a, a)` and `(b, b)`. -/
def sqEdges (a b : ℚ) : List BrepEdge :=
  [linEdge ⟨a, a, 0⟩ ⟨b, a, 0⟩, linEdge ⟨b, a, 0⟩ ⟨b, b, 0⟩,
   linEdge ⟨b, b, 0⟩ ⟨a, b, 0⟩, linEdge ⟨a, b, 0⟩ ⟨a, a, 0⟩]

/-- The boundary polyline: the 10 by 10 square, perimeter 40. -/
def outerPoly : Polyline3D := ⟨sqRing 0 10, 40⟩

/-- A hole polyline strictly inside the boundary whose corner `(1/2, 1/2)` is
within tolerance 1 of the boundary corner `(0, 0)` without being equal. -/
def innerPolyNear : Polyline3D := ⟨sqRing (mkRat 1 2) (mkRat 5 2), 8⟩

/-- A hole polyline sharing the exact vertex `(0, 0, 0)` with the boundary. -/
def innerPolyTouch : Polyline3D := ⟨sqRing 0 (mkRat 5 2), 10⟩

/-- A tessellation of the 10 by 10 square: a fan of four triangles around the
center, five vertices. -/
def quadMesh : Mesh :=
  ⟨[⟨0, 0, 0⟩, ⟨10, 0, 0⟩, ⟨10, 10, 0⟩, ⟨0, 10, 0⟩, ⟨5, 5, 0⟩],
   [[0, 1, 4], [1, 2, 4], [2, 3, 4], [3, 0, 4]]⟩

/-- A joiner that assembles the edges into the near-touch hole and the
boundary. -/
def joinTwoNear : JoinSegments := fun _ _ => [innerPolyNear, outerPoly]

/-- A joiner that assembles the edges into the exact-touch hole and the
boundary. -/
def joinTwoTouch : JoinSegments := fun _ _ => [innerPolyTouch, outerPoly]

/-- A joiner that assembles the edges into the boundary alone. -/
def joinOne : JoinSegments := fun _ _ => [outerPoly]

/-- A planar brep with eight linear edges (outer square and inner square)
and one tessellated face. -/
def holeBrep : Brep :=
  ⟨sqEdges 0 10 ++ sqEdges (mkRat 1 2) (mkRat 5 2), [⟨some quadMesh⟩]⟩

/-- A three-vertex tessellation whose single face record cites the
out-of-range vertex index 9. -/
def triMeshBad : Mesh := ⟨[⟨0, 0, 0⟩, ⟨10, 0, 0⟩, ⟨10, 10, 0⟩], [[0, 1, 9]]⟩

/-- A planar brep whose tessellation carries an out-of-range vertex index. -/
def badIndexBrep : Brep := ⟨sqEdges 0 10, [⟨some triMeshBad⟩]⟩

/-- A planar brep whose face has no tessellation (`GetMesh` yields `None`). -/
def noMeshBrep : Brep := ⟨sqEdges 0 10, [⟨none⟩]⟩

/-- An edge whose kernel linearity report is `false` at every tolerance. -/
def curvedEdge : BrepEdge := ⟨fun _ => false, ⟨0, 0, 0⟩, ⟨10, 0, 0⟩⟩

/-- A brep with one curved edge and a tessellated face. -/
def curvedBrep : Brep := ⟨curvedEdge :: sqEdges 0 10, [⟨some quadMesh⟩]⟩

/-- A mesh with a single face record of arity 5. -/
def arity5Mesh : Mesh :=
  ⟨[⟨0, 0, 0⟩, ⟨1, 0, 0⟩, ⟨2, 0, 0⟩, ⟨3, 0, 0⟩, ⟨4, 0, 0⟩], [[0, 1, 2, 3, 4]]⟩

/-- A mesh with one triangle record and one quad record. -/
def triQuadMesh : Mesh :=
  ⟨[⟨0, 0, 0⟩, ⟨1, 0, 0⟩, ⟨1, 1, 0⟩, ⟨0, 1, 0⟩], [[0, 1, 2], [0, 1, 2, 3]]⟩

/-- A triangle tessellation with exactly three vertices. -/
def triMesh : Mesh := ⟨[⟨0, 0, 0⟩, ⟨10, 0, 0⟩, ⟨5, 5, 0⟩], [[0, 1, 2]]⟩

/-- A planar brep whose face is the simple triangle tessellation. -/
def triBrep : Brep :=
  ⟨[linEdge ⟨0, 0, 0⟩ ⟨10, 0, 0⟩, linEdge ⟨10, 0, 0⟩ ⟨5, 5, 0⟩,
    linEdge ⟨5, 5, 0⟩ ⟨0, 0, 0⟩], [⟨some triMesh⟩]⟩

/-- A file object of an unsupported geometry kind. -/
def pointObj : RhObject := ⟨.point⟩

/-- A file object wrapping a mesh geometry. -/
def meshObj : RhObject := ⟨.mesh triMesh⟩

/-- Squares of perimeters 4, 8 and 12 used as polylines of distinct length. -/
def polyA : Polyline3D := ⟨sqRing 0 1, 4⟩

/-- See `polyA`. -/
def polyB : Polyline3D := ⟨sqRing 0 2, 8⟩

/-- See `polyA`. -/
def polyC : Polyline3D := ⟨sqRing 0 3, 12⟩

/-! ### Helper lemmas -/

theorem ratAbs_eq_abs (q : ℚ) : ratAbs q = |q| := by
  rw [ratAbs]
  rcases lt_or_le q 0 with h | h
  · rw [if_pos h, abs_of_neg h]
  · rw [if_neg (not_lt.mpr h), abs_of_nonneg h]

theorem ratSub_eq_sub (a b : ℚ) : ratSub a b = a - b := by
  have ha : ((a.den : ℚ)) ≠ 0 := by
    exact_mod_cast a.den_nz
  have hb : ((b.den : ℚ)) ≠ 0 := by
    exact_mod_cast b.den_nz
  have ha2 : ((a.num : ℚ)) = a * a.den := (div_eq_iff ha).mp (Rat.num_div_den a)
  have hb2 : ((b.num : ℚ)) = b * b.den := (div_eq_iff hb).mp (Rat.num_div_den b)
  rw [ratSub, Rat.mkRat_eq_div]
  push_cast
  rw [div_eq_iff (by positivity), ha2, hb2]
  ring

/-- The equivalence test says exactly that each coordinate differs by at most
the tolerance. -/
theorem is_equivalent_iff (p other : Point3) (tolerance : ℚ) :
    Point3.is_equivalent p other tolerance = true ↔
      |p.x - other.x| ≤ tolerance ∧ |p.y - other.y| ≤ tolerance ∧
        |p.z - other.z| ≤ tolerance := by
  simp [Point3.is_equivalent, ratAbs_eq_abs, ratSub_eq_sub]

theorem except_bind_ok {ε α β : Type _} (a : α) (f : α → Except ε β) :
    (Except.ok a >>= f) = f a := rfl

theorem except_bind_error {ε α β : Type _} (e : ε) (f : α → Except ε β) :
    ((Except.error e : Except ε α) >>= f) = .error e := rfl

theorem mesh_faces_holes_nil (pts : List Point3) :
    ∀ (faces : List (List Nat)) (l : List Face3D),
      mesh_faces_to_face3d pts faces = .ok l → ∀ f ∈ l, f.holes = []
  | [], l, h => by
    rw [mesh_faces_to_face3d] at h
    cases h
    intro f hf
    cases hf
  | face :: rest, l, h => by
    rw [mesh_faces_to_face3d] at h
    cases hv : face_verts pts face with
    | error e => rw [hv, except_bind_error] at h; cases h
    | ok verts =>
      rw [hv, except_bind_ok] at h
      cases hr : mesh_faces_to_face3d pts rest with
      | error e => rw [hr, except_bind_error] at h; cases h
      | ok others =>
        rw [hr, except_bind_ok] at h
        cases h
        intro f hf
        rcases List.mem_cons.mp hf with rfl | hf2
        · rfl
        · exact mesh_faces_holes_nil pts rest others hr f hf2

theorem mesh_to_face3d_holes_nil (mesh : Mesh) (l : List Face3D)
    (h : mesh_to_face3d mesh = .ok l) : ∀ f ∈ l, f.holes = [] :=
  mesh_faces_holes_nil _ mesh.Faces l h

theorem brep_faces_holes_nil :
    ∀ (bfs : List BrepFace) (l : List Face3D),
      brep_faces_to_face3d bfs = .ok l → ∀ f ∈ l, f.holes = []
  | [], l, h => by
    rw [brep_faces_to_face3d] at h
    cases h
    intro f hf
    cases hf
  | bf :: rest, l, h => by
    rw [brep_faces_to_face3d] at h
    split at h
    · cases h
    · rename_i m hg
      cases hm : mesh_to_face3d m with
      | error e => rw [hm, except_bind_error] at h; cases h
      | ok fs =>
        rw [hm, except_bind_ok] at h
        cases hr : brep_faces_to_face3d rest with
        | error e => rw [hr, except_bind_error] at h; cases h
        | ok others =>
          rw [hr, except_bind_ok] at h
          cases h
          intro f hf
          rcases List.mem_append.mp hf with hf1 | hf2
          · exact mesh_to_face3d_holes_nil m fs hm f hf1
          · exact brep_faces_holes_nil rest others hr f hf2

theorem brep_to_face3d_holes_nil (brep : Brep) (l : List Face3D)
    (h : brep_to_face3d brep = .ok l) : ∀ f ∈ l, f.holes = [] :=
  brep_faces_holes_nil brep.Faces l h

theorem except_bind_eq_ok {ε α β : Type _} {a : Except ε α} {f : α → Except ε β} {b : β}
    (h : (a >>= f) = .ok b) : ∃ x, a = .ok x ∧ f x = .ok b := by
  cases a with
  | ok x => exact ⟨x, rfl, h⟩
  | error e => cases h

theorem except_bind_eq_error {ε α β : Type _} {a : Except ε α} {f : α → Except ε β} {e : ε}
    (h : (a >>= f) = .error e) : a = .error e ∨ ∃ x, a = .ok x ∧ f x = .error e := by
  cases a with
  | ok x => exact .inr ⟨x, rfl, h⟩
  | error e2 => left; cases h; rfl

theorem pyGet_error {α : Type _} {l : List α} {i : Nat} {e : PyErr}
    (h : pyGet l i = .error e) : e = .indexError := by
  rw [pyGet] at h
  cases hg : l.get? i with
  | none => rw [hg] at h; cases h; rfl
  | some a => rw [hg] at h; cases h

theorem pyGetAt_error {pts : List Point3} {face : List Nat} {k : Nat} {e : PyErr}
    (h : pyGetAt pts face k = .error e) : e = .indexError := by
  rw [pyGetAt] at h
  rcases except_bind_eq_error h with h1 | ⟨i, _, h2⟩
  · exact pyGet_error h1
  · exact pyGet_error h2

theorem face_verts_error {pts : List Point3} {face : List Nat} {e : PyErr}
    (h : face_verts pts face = .error e) : e = .indexError := by
  rw [face_verts] at h
  split at h
  · rcases except_bind_eq_error h with h1 | ⟨v0, _, h⟩
    · exact pyGetAt_error h1
    rcases except_bind_eq_error h with h1 | ⟨v1, _, h⟩
    · exact pyGetAt_error h1
    rcases except_bind_eq_error h with h1 | ⟨v2, _, h⟩
    · exact pyGetAt_error h1
    rcases except_bind_eq_error h with h1 | ⟨v3, _, h⟩
    · exact pyGetAt_error h1
    · cases h
  · rcases except_bind_eq_error h with h1 | ⟨v0, _, h⟩
    · exact pyGetAt_error h1
    rcases except_bind_eq_error h with h1 | ⟨v1, _, h⟩
    · exact pyGetAt_error h1
    rcases except_bind_eq_error h with h1 | ⟨v2, _, h⟩
    · exact pyGetAt_error h1
    · cases h

theorem mesh_faces_error (pts : List Point3) :
    ∀ {faces : List (List Nat)} {e : PyErr},
      mesh_faces_to_face3d pts faces = .error e → e = .indexError
  | [], _, h => by rw [mesh_faces_to_face3d] at h; cases h
  | face :: rest, e, h => by
    rw [mesh_faces_to_face3d] at h
    rcases except_bind_eq_error h with h1 | ⟨verts, _, h⟩
    · exact face_verts_error h1
    rcases except_bind_eq_error h with h1 | ⟨others, _, h⟩
    · exact mesh_faces_error pts h1
    · cases h

theorem mesh_to_face3d_error {mesh : Mesh} {e : PyErr}
    (h : mesh_to_face3d mesh = .error e) : e = .indexError :=
  mesh_faces_error _ h

theorem brep_faces_error :
    ∀ {bfs : List BrepFace} {e : PyErr},
      brep_faces_to_face3d bfs = .error e → e = .indexError ∨ e = .attributeError
  | [], _, h => by rw [brep_faces_to_face3d] at h; cases h
  | bf :: rest, e, h => by
    rw [brep_faces_to_face3d] at h
    split at h
    · cases h; right; rfl
    · rename_i m hg
      rcases except_bind_eq_error h with h1 | ⟨fs, _, h⟩
      · exact .inl (mesh_to_face3d_error h1)
      rcases except_bind_eq_error h with h1 | ⟨others, _, h⟩
      · exact brep_faces_error h1
      · cases h

theorem solid_faces_eq_brep_faces :
    ∀ bfs : List BrepFace, solid_faces_to_face3d bfs = brep_faces_to_face3d bfs
  | [] => rfl
  | bf :: rest => by
    rw [solid_faces_to_face3d, brep_faces_to_face3d]
    cases bf.GetMesh with
    | none => rfl
    | some m => rw [solid_faces_eq_brep_faces rest]

theorem face_verts_length {pts : List Point3} {face : List Nat} {vs : List Point3}
    (h : face_verts pts face = .ok vs) :
    vs.length = if face.length = 4 then 4 else 3 := by
  rw [face_verts] at h
  split at h <;> rename_i h4
  · obtain ⟨v0, _, h⟩ := except_bind_eq_ok h
    obtain ⟨v1, _, h⟩ := except_bind_eq_ok h
    obtain ⟨v2, _, h⟩ := except_bind_eq_ok h
    obtain ⟨v3, _, h⟩ := except_bind_eq_ok h
    cases h
    rw [if_pos h4]
    rfl
  · obtain ⟨v0, _, h⟩ := except_bind_eq_ok h
    obtain ⟨v1, _, h⟩ := except_bind_eq_ok h
    obtain ⟨v2, _, h⟩ := except_bind_eq_ok h
    cases h
    rw [if_neg h4]
    rfl

theorem mesh_faces_forall2 (pts : List Point3) :
    ∀ {faces : List (List Nat)} {l : List Face3D},
      mesh_faces_to_face3d pts faces = .ok l →
      List.Forall₂
        (fun fr f => f.boundary.length = (if fr.length = 4 then 4 else 3) ∧
          f.holes = ([] : List (List Point3))) faces l
  | [], l, h => by
    rw [mesh_faces_to_face3d] at h
    cases h
    exact .nil
  | face :: rest, l, h => by
    rw [mesh_faces_to_face3d] at h
    obtain ⟨verts, hv, h⟩ := except_bind_eq_ok h
    obtain ⟨others, hr, h⟩ := except_bind_eq_ok h
    cases h
    exact .cons ⟨face_verts_length hv, rfl⟩ (mesh_faces_forall2 pts hr)

theorem pyGet_ok_of_lt {α : Type _} {l : List α} {i : Nat} (h : i < l.length) :
    pyGet l i = .ok (l.get ⟨i, h⟩) := by
  rw [pyGet, List.get?_eq_get h]

theorem pyGetAt_ok {pts : List Point3} {face : List Nat} {k : Nat} {i : Nat}
    (hk : face.get? k = some i) (hi : i < pts.length) :
    pyGetAt pts face k = .ok (pts.get ⟨i, hi⟩) := by
  rw [pyGetAt]
  rw [show pyGet face k = .ok i from by rw [pyGet, hk]]
  rw [except_bind_ok]
  exact pyGet_ok_of_lt hi

theorem face_verts_ok {pts : List Point3} {face : List Nat}
    (har : face.length = 3 ∨ face.length = 4)
    (hin : ∀ i ∈ face, i < pts.length) :
    ∃ vs, face_verts pts face = .ok vs := by
  rcases face with _ | ⟨a, _ | ⟨b, _ | ⟨c, _ | ⟨d, rest⟩⟩⟩⟩ <;>
    simp only [List.length_nil, List.length_cons] at har
  · omega
  · omega
  · omega
  · -- face = [a, b, c]
    have ha : a < pts.length := hin a (by simp)
    have hb : b < pts.length := hin b (by simp)
    have hc : c < pts.length := hin c (by simp)
    refine ⟨[pts.get ⟨a, ha⟩, pts.get ⟨b, hb⟩, pts.get ⟨c, hc⟩], ?_⟩
    rw [face_verts, if_neg (by simp)]
    rw [@pyGetAt_ok pts [a, b, c] 0 a rfl ha, except_bind_ok,
      @pyGetAt_ok pts [a, b, c] 1 b rfl hb, except_bind_ok,
      @pyGetAt_ok pts [a, b, c] 2 c rfl hc, except_bind_ok]
    rfl
  · -- face = a :: b :: c :: d :: rest, of length 4, so rest = []
    have hrest : rest = [] := by
      rcases rest with _ | ⟨e, rest2⟩
      · rfl
      · simp only [List.length_cons] at har
        omega
    subst hrest
    have ha : a < pts.length := hin a (by simp)
    have hb : b < pts.length := hin b (by simp)
    have hc : c < pts.length := hin c (by simp)
    have hd : d < pts.length := hin d (by simp)
    refine ⟨[pts.get ⟨a, ha⟩, pts.get ⟨b, hb⟩, pts.get ⟨c, hc⟩, pts.get ⟨d, hd⟩], ?_⟩
    rw [face_verts, if_pos (by simp)]
    rw [@pyGetAt_ok pts [a, b, c, d] 0 a rfl ha, except_bind_ok,
      @pyGetAt_ok pts [a, b, c, d] 1 b rfl hb, except_bind_ok,
      @pyGetAt_ok pts [a, b, c, d] 2 c rfl hc, except_bind_ok,
      @pyGetAt_ok pts [a, b, c, d] 3 d rfl hd, except_bind_ok]
    rfl

theorem mesh_faces_ok (pts : List Point3) :
    ∀ {faces : List (List Nat)},
      (∀ fr ∈ faces, (fr.length = 3 ∨ fr.length = 4) ∧ ∀ i ∈ fr, i < pts.length) →
      ∃ l, mesh_faces_to_face3d pts faces = .ok l ∧ l.length = faces.length
  | [], _ => ⟨[], rfl, rfl⟩
  | face :: rest, h => by
    obtain ⟨vs, hv⟩ := face_verts_ok (h face (.head _)).1 (h face (.head _)).2
    obtain ⟨l, hl, hlen⟩ := mesh_faces_ok pts fun fr hfr => h fr (.tail _ hfr)
    refine ⟨Face3D.mk vs [] :: l, ?_, by simp [hlen]⟩
    rw [mesh_faces_to_face3d, hv, except_bind_ok, hl, except_bind_ok]
    rfl

theorem mesh_to_face3d_wf {m : Mesh} (h : WellFormedMesh m = true) :
    ∃ l, mesh_to_face3d m = .ok l ∧ l ≠ [] ∧ l.length = m.Faces.length := by
  rw [WellFormedMesh] at h
  simp only [Bool.and_eq_true, Bool.not_eq_true', List.all_eq_true, Bool.or_eq_true,
    decide_eq_true_eq] at h
  obtain ⟨hne0, hall⟩ := h
  have hne : m.Faces ≠ [] := by
    intro hnil
    rw [hnil] at hne0
    cases hne0
  obtain ⟨l, hl, hlen⟩ := mesh_faces_ok (m.Vertices.map to_point3d)
    (fun fr hfr => ⟨(hall fr hfr).1, fun i hi => by
      rw [List.length_map]
      exact (hall fr hfr).2 i hi⟩)
  refine ⟨l, hl, ?_, hlen⟩
  intro hnil
  subst hnil
  exact hne (List.length_eq_zero.mp hlen.symm)

theorem brep_faces_cons_some {bf : BrepFace} {rest : List BrepFace} {m : Mesh}
    (hm : bf.GetMesh = some m) :
    brep_faces_to_face3d (bf :: rest) =
      (do
        let fs ← mesh_to_face3d m
        let others ← brep_faces_to_face3d rest
        pure (fs ++ others)) := by
  rw [brep_faces_to_face3d, hm]

theorem brep_faces_ok :
    ∀ {bfs : List BrepFace},
      (∀ bf ∈ bfs, ∃ m, bf.GetMesh = some m ∧ WellFormedMesh m = true) →
      ∃ l, brep_faces_to_face3d bfs = .ok l ∧ (bfs ≠ [] → l ≠ [])
  | [], _ => ⟨[], rfl, fun h => absurd rfl h⟩
  | bf :: rest, h => by
    obtain ⟨m, hm, hwf⟩ := h bf (.head _)
    obtain ⟨fs, hfs, hfne, _⟩ := mesh_to_face3d_wf hwf
    obtain ⟨l, hl, _⟩ := brep_faces_ok fun x hx => h x (.tail _ hx)
    refine ⟨fs ++ l, ?_, fun _ => by simp [hfne]⟩
    rw [brep_faces_cons_some hm, hfs, except_bind_ok, hl, except_bind_ok]
    rfl

theorem separate_polylines_length (ps : List Polyline3D) :
    (separate_polylines ps).length = ps.length := by
  rw [separate_polylines, List.length_reverse, List.length_insertionSort]

theorem countP_nonlinear_eq_zero {brep : Brep} {tol : ℚ}
    (hlin : ∀ e ∈ brep.Edges, e.IsLinear tol = true) :
    (brep.Edges.countP fun e => decide (e.IsLinear tol = false)) = 0 :=
  List.countP_eq_zero.mpr fun e he => by simp [hlin e he]

theorem brep2d_curved {join : JoinSegments} {brep : Brep} {tol : ℚ}
    (h : ∃ e ∈ brep.Edges, e.IsLinear tol = false) :
    brep2d_to_face3d join brep tol = ([.curvedEdges], brep_to_face3d brep) := by
  have hc : 0 < brep.Edges.countP fun e => decide (e.IsLinear tol = false) := by
    rw [List.countP_pos_iff]
    simpa using h
  simp only [brep2d_to_face3d]
  rw [if_pos hc]

theorem brep2d_linear_some {join : JoinSegments} {brep : Brep} {tol : ℚ}
    {f0 : BrepFace} {m : Mesh}
    (hlin : ∀ e ∈ brep.Edges, e.IsLinear tol = true)
    (h0 : brep.Faces.get? 0 = some f0)
    (hm : f0.GetMesh = some m) :
    brep2d_to_face3d join brep tol =
      (if (sortedPolylinesOf join brep tol).length = 1 then
        if (m.Vertices.map to_point3d).length = 4 ∨ (m.Vertices.map to_point3d).length = 3 then
          ([], mesh_to_face3d m)
        else
          ([], .ok [Face3D.mk (boundaryPtsOf join brep tol) []])
      else if (sortedPolylinesOf join brep tol).length > 1 then
        if (holePtsOnBoundaryOf join brep tol).length > 0 then
          ([.holesTouchBoundary], brep_to_face3d brep)
        else
          ([], .ok [Face3D.mk (boundaryPtsOf join brep tol) (holePtsOf join brep tol)])
      else ([], .ok [])) := by
  have hnc : ¬ (0 < brep.Edges.countP fun e => decide (e.IsLinear tol = false)) := by
    rw [countP_nonlinear_eq_zero hlin]
    exact lt_irrefl 0
  simp only [brep2d_to_face3d]
  rw [if_neg hnc]
  simp only [h0, hm]

theorem brep2d_nonplanar {join : JoinSegments} {brep : Brep} {tol : ℚ} {f0 : BrepFace}
    (hlin : ∀ e ∈ brep.Edges, e.IsLinear tol = true)
    (h0 : brep.Faces.get? 0 = some f0)
    (hm : f0.GetMesh = none) :
    brep2d_to_face3d join brep tol = ([.nonPlanarIgnored], .ok []) := by
  have hnc : ¬ (0 < brep.Edges.countP fun e => decide (e.IsLinear tol = false)) := by
    rw [countP_nonlinear_eq_zero hlin]
    exact lt_irrefl 0
  simp only [brep2d_to_face3d]
  rw [if_neg hnc]
  simp only [h0, hm]

theorem brep2d_no_faces {join : JoinSegments} {brep : Brep} {tol : ℚ}
    (hlin : ∀ e ∈ brep.Edges, e.IsLinear tol = true)
    (h0 : brep.Faces.get? 0 = none) :
    brep2d_to_face3d join brep tol = ([], .error .indexError) := by
  have hnc : ¬ (0 < brep.Edges.countP fun e => decide (e.IsLinear tol = false)) := by
    rw [countP_nonlinear_eq_zero hlin]
    exact lt_irrefl 0
  simp only [brep2d_to_face3d]
  rw [if_neg hnc]
  simp only [h0]

theorem brep2d_single_mesh {join : JoinSegments} {brep : Brep} {tol : ℚ}
    {f0 : BrepFace} {m : Mesh}
    (hlin : ∀ e ∈ brep.Edges, e.IsLinear tol = true)
    (h0 : brep.Faces.get? 0 = some f0)
    (hm : f0.GetMesh = some m)
    (hlen : (sortedPolylinesOf join brep tol).length = 1)
    (hpts : (m.Vertices.map to_point3d).length = 4 ∨ (m.Vertices.map to_point3d).length = 3) :
    brep2d_to_face3d join brep tol = ([], mesh_to_face3d m) := by
  rw [brep2d_linear_some hlin h0 hm, if_pos hlen, if_pos hpts]

theorem brep2d_single_face {join : JoinSegments} {brep : Brep} {tol : ℚ}
    {f0 : BrepFace} {m : Mesh}
    (hlin : ∀ e ∈ brep.Edges, e.IsLinear tol = true)
    (h0 : brep.Faces.get? 0 = some f0)
    (hm : f0.GetMesh = some m)
    (hlen : (sortedPolylinesOf join brep tol).length = 1)
    (hpts : ¬ ((m.Vertices.map to_point3d).length = 4 ∨ (m.Vertices.map to_point3d).length = 3)) :
    brep2d_to_face3d join brep tol = ([], .ok [Face3D.mk (boundaryPtsOf join brep tol) []]) := by
  rw [brep2d_linear_some hlin h0 hm, if_pos hlen, if_neg hpts]

theorem brep2d_touch {join : JoinSegments} {brep : Brep} {tol : ℚ}
    {f0 : BrepFace} {m : Mesh}
    (hlin : ∀ e ∈ brep.Edges, e.IsLinear tol = true)
    (h0 : brep.Faces.get? 0 = some f0)
    (hm : f0.GetMesh = some m)
    (hlen : 1 < (sortedPolylinesOf join brep tol).length)
    (ht : 0 < (holePtsOnBoundaryOf join brep tol).length) :
    brep2d_to_face3d join brep tol = ([.holesTouchBoundary], brep_to_face3d brep) := by
  rw [brep2d_linear_some hlin h0 hm, if_neg (by omega), if_pos hlen, if_pos ht]

theorem brep2d_notouch {join : JoinSegments} {brep : Brep} {tol : ℚ}
    {f0 : BrepFace} {m : Mesh}
    (hlin : ∀ e ∈ brep.Edges, e.IsLinear tol = true)
    (h0 : brep.Faces.get? 0 = some f0)
    (hm : f0.GetMesh = some m)
    (hlen : 1 < (sortedPolylinesOf join brep tol).length)
    (ht : ¬ (0 < (holePtsOnBoundaryOf join brep tol).length)) :
    brep2d_to_face3d join brep tol =
      ([], .ok [Face3D.mk (boundaryPtsOf join brep tol) (holePtsOf join brep tol)]) := by
  rw [brep2d_linear_some hlin h0 hm, if_neg (by omega), if_pos hlen, if_neg ht]

theorem mesh_ne_valueError (m : Mesh) : mesh_to_face3d m ≠ .error .valueError := by
  intro h
  cases mesh_to_face3d_error h

theorem solid_ne_valueError (brep : Brep) : solid_to_face3d brep ≠ .error .valueError := by
  rw [solid_to_face3d, solid_faces_eq_brep_faces]
  intro h
  rcases brep_faces_error h with h1 | h1 <;> cases h1

theorem extrusion_ne_valueError (e : Extrusion) : extrusion_to_face3d e ≠ .error .valueError := by
  rw [extrusion_to_face3d]
  split
  · intro h
    cases h
  · intro h
    cases mesh_to_face3d_error h

theorem brep2d_ne_valueError (join : JoinSegments) (brep : Brep) (tol : ℚ) :
    (brep2d_to_face3d join brep tol).2 ≠ .error .valueError := by
  by_cases hc : ∃ e ∈ brep.Edges, e.IsLinear tol = false
  · rw [brep2d_curved hc]
    intro h
    rcases brep_faces_error h with h1 | h1 <;> cases h1
  · have hlin : ∀ e ∈ brep.Edges, e.IsLinear tol = true := by
      intro e he
      rcases Bool.eq_false_or_eq_true (e.IsLinear tol) with ht | hf
      · exact ht
      · exact absurd ⟨e, he, hf⟩ hc
    cases h0 : brep.Faces.get? 0 with
    | none =>
      rw [brep2d_no_faces hlin h0]
      intro h
      cases h
    | some f0 =>
      cases hm : f0.GetMesh with
      | none =>
        rw [brep2d_nonplanar hlin h0 hm]
        intro h
        cases h
      | some m =>
        rw [brep2d_linear_some hlin h0 hm]
        split
        · split
          · intro h
            cases mesh_to_face3d_error h
          · intro h
            cases h
        · split
          · split
            · intro h
              rcases brep_faces_error h with h1 | h1 <;> cases h1
            · intro h
              cases h
          · intro h
            cases h

theorem forall2_exists_left {α β : Type _} {R : α → β → Prop} :
    ∀ {as : List α} {bs : List β}, List.Forall₂ R as bs → ∀ b ∈ bs, ∃ a ∈ as, R a b
  | _, _, .nil, b, hb => absurd hb (List.not_mem_nil b)
  | _, _, .cons h hrest, b, hb => by
    rcases List.mem_cons.mp hb with rfl | hb2
    · exact ⟨_, .head _, h⟩
    · obtain ⟨a, ha, hr⟩ := forall2_exists_left hrest b hb2
      exact ⟨a, .tail _ ha, hr⟩

/-! ### Claim theorems -/

/-- Claim C6: for every nonempty set of assembled polylines with pairwise
distinct lengths, the boundary/hole separation of `brep2d_to_face3d`
(`separate_polylines`) puts the unique maximum-length polyline first as the
boundary and emits the remaining polylines as holes in strictly descending
length order. -/
theorem separate_polylines_spec (ps : List Polyline3D) (hne : ps ≠ [])
    (hdist : ps.Pairwise fun a b => Polyline3D.length a ≠ Polyline3D.length b) :
    ∃ b holes, separate_polylines ps = b :: holes ∧ b ∈ ps ∧
      (∀ q ∈ ps, Polyline3D.length q ≤ Polyline3D.length b) ∧
      List.Pairwise (fun a c => Polyline3D.length c < Polyline3D.length a) (b :: holes) := by
  have hsort : List.Sorted lenLE (ps.insertionSort lenLE) := List.sorted_insertionSort lenLE ps
  have hperm : (ps.insertionSort lenLE).Perm ps := List.perm_insertionSort lenLE ps
  have hperm2 : (separate_polylines ps).Perm ps := by
    rw [separate_polylines]
    exact (List.reverse_perm _).trans hperm
  have hsorted_rev : List.Pairwise (fun a c => lenLE c a) (separate_polylines ps) := by
    rw [separate_polylines]
    exact List.pairwise_reverse.mpr hsort
  have hdist_s : (separate_polylines ps).Pairwise
      (fun a c => Polyline3D.length a ≠ Polyline3D.length c) :=
    hperm2.symm.pairwise hdist fun h => Ne.symm h
  have hstrict : (separate_polylines ps).Pairwise
      (fun a c => Polyline3D.length c < Polyline3D.length a) :=
    (hsorted_rev.and hdist_s).imp fun h => lt_of_le_of_ne h.1 (Ne.symm h.2)
  have hlen : (separate_polylines ps).length = ps.length := separate_polylines_length ps
  obtain ⟨b, holes, hcons⟩ : ∃ b holes, separate_polylines ps = b :: holes := by
    cases hsl : separate_polylines ps with
    | nil =>
      rw [hsl] at hlen
      exact absurd (List.length_eq_zero.mp hlen.symm) hne
    | cons b holes => exact ⟨b, holes, rfl⟩
  rw [hcons] at hstrict hperm2
  refine ⟨b, holes, hcons, ?_, ?_, hstrict⟩
  · exact hperm2.subset (List.mem_cons_self b holes)
  · intro q hq
    have hq2 : q ∈ b :: holes := hperm2.mem_iff.mpr hq
    rcases List.mem_cons.mp hq2 with rfl | hq3
    · exact le_refl _
    · have hlt : Polyline3D.length q < Polyline3D.length b :=
        List.rel_of_pairwise_cons hstrict hq3
      exact le_of_lt hlt

/-- Witness for C6 at three concrete polylines of lengths 4, 12 and 8. -/
theorem separate_polylines_spec_witness :
    ∃ b holes, separate_polylines [polyA, polyC, polyB] = b :: holes ∧
      b ∈ [polyA, polyC, polyB] ∧
      (∀ q ∈ [polyA, polyC, polyB], Polyline3D.length q ≤ Polyline3D.length b) ∧
      List.Pairwise (fun a c => Polyline3D.length c < Polyline3D.length a) (b :: holes) :=
  separate_polylines_spec [polyA, polyC, polyB] (by decide) (by decide)

/-- Claim C10: `solid_to_face3d` and `brep_to_face3d` are extensionally
equal — both mesh every constituent brep face via `mesh_to_face3d` and
concatenate the results in face order. -/
theorem solid_to_face3d_eq_brep_to_face3d (brep : Brep) :
    solid_to_face3d brep = brep_to_face3d brep :=
  solid_faces_eq_brep_faces brep.Faces

/-- Claim C2, amended: `remove_dup_vertices` never returns more points than
its input (the other two conjuncts of the claim — no tolerance-equivalent
adjacent output points, and idempotence — are refuted by the
counterexample). -/
theorem remove_dup_vertices_length_le (vertices : List Point3) (tolerance : ℚ) :
    (remove_dup_vertices vertices tolerance).length ≤ vertices.length := by
  rw [remove_dup_vertices]
  calc (vertices.enum.filterMap _).length ≤ vertices.enum.length :=
        List.length_filterMap_le _ _
    _ = vertices.length := List.enum_length

/-- Counterexample for C2: on the points `(10, 0, 1, -1/2)` (x-coordinates,
tolerance 1) the output keeps the tolerance-equivalent adjacent pair
`0, -1/2`, and a second application removes `-1/2`, so the function is
neither adjacent-duplicate-free nor idempotent. -/
theorem remove_dup_vertices_not_idempotent_cex :
    remove_dup_vertices
        [⟨10, 0, 0⟩, ⟨0, 0, 0⟩, ⟨1, 0, 0⟩, ⟨mkRat (-1) 2, 0, 0⟩] 1 =
      [⟨10, 0, 0⟩, ⟨0, 0, 0⟩, ⟨mkRat (-1) 2, 0, 0⟩] ∧
    Point3.is_equivalent ⟨0, 0, 0⟩ ⟨mkRat (-1) 2, 0, 0⟩ 1 = true ∧
    remove_dup_vertices
        (remove_dup_vertices [⟨10, 0, 0⟩, ⟨0, 0, 0⟩, ⟨1, 0, 0⟩, ⟨mkRat (-1) 2, 0, 0⟩] 1) 1 ≠
      remove_dup_vertices [⟨10, 0, 0⟩, ⟨0, 0, 0⟩, ⟨1, 0, 0⟩, ⟨mkRat (-1) 2, 0, 0⟩] 1 := by
  refine ⟨by decide, by decide, by decide⟩

/-- Claim C9: on a single-point list and a nonnegative tolerance,
`remove_dup_vertices` returns the empty list, because the wraparound
comparison at index 0 compares the point with itself. -/
theorem remove_dup_vertices_singleton (p : Point3) (tolerance : ℚ)
    (h : 0 ≤ tolerance) : remove_dup_vertices [p] tolerance = [] := by
  have hself : p.is_equivalent p tolerance = true := by
    rw [is_equivalent_iff]
    simp [h]
  simp [remove_dup_vertices, hself]

/-- Witness for C9 at the point `(1, 2, 3)` and tolerance 2. -/
theorem remove_dup_vertices_singleton_witness :
    (0 : ℚ) ≤ 2 ∧ remove_dup_vertices [⟨1, 2, 3⟩] 2 = [] :=
  ⟨by norm_num, remove_dup_vertices_singleton ⟨1, 2, 3⟩ 2 (by norm_num)⟩

/-- Claim C5, amended: each polygon `mesh_to_face3d` emits matches its source
face record — 4 vertices for an arity-4 record and 3 vertices (the first
three indices) for every other record — and has no holes; consequently every
emitted polygon has 3 or 4 vertices.  However, a record of arity other than
3 or 4 is not rejected with an error: an arity above 4 silently emits a
3-vertex polygon (see the counterexample). -/
theorem mesh_to_face3d_arity (mesh : Mesh) (l : List Face3D)
    (h : mesh_to_face3d mesh = .ok l) :
    List.Forall₂
      (fun fr f => (Face3D.boundary f).length = (if List.length fr = 4 then 4 else 3) ∧
        Face3D.holes f = []) mesh.Faces l ∧
      ∀ f ∈ l, (Face3D.boundary f).length = 3 ∨ (Face3D.boundary f).length = 4 := by
  have hf2 := mesh_faces_forall2 (mesh.Vertices.map to_point3d) h
  refine ⟨hf2, ?_⟩
  intro f hf
  obtain ⟨fr, _, hfr⟩ := forall2_exists_left hf2 f hf
  rw [hfr.1]
  by_cases h4 : fr.length = 4
  · right
    rw [if_pos h4]
  · left
    rw [if_neg h4]

/-- Witness for C5 at a mesh with one triangle record and one quad record. -/
theorem mesh_to_face3d_arity_witness :
    mesh_to_face3d triQuadMesh =
      .ok [Face3D.mk [⟨0, 0, 0⟩, ⟨1, 0, 0⟩, ⟨1, 1, 0⟩] [],
           Face3D.mk [⟨0, 0, 0⟩, ⟨1, 0, 0⟩, ⟨1, 1, 0⟩, ⟨0, 1, 0⟩] []] ∧
    (List.Forall₂
      (fun fr f => (Face3D.boundary f).length = (if List.length fr = 4 then 4 else 3) ∧
        Face3D.holes f = []) triQuadMesh.Faces
        [Face3D.mk [⟨0, 0, 0⟩, ⟨1, 0, 0⟩, ⟨1, 1, 0⟩] [],
         Face3D.mk [⟨0, 0, 0⟩, ⟨1, 0, 0⟩, ⟨1, 1, 0⟩, ⟨0, 1, 0⟩] []] ∧
      ∀ f ∈ [Face3D.mk [⟨0, 0, 0⟩, ⟨1, 0, 0⟩, ⟨1, 1, 0⟩] [],
             Face3D.mk [⟨0, 0, 0⟩, ⟨1, 0, 0⟩, ⟨1, 1, 0⟩, ⟨0, 1, 0⟩] []],
        (Face3D.boundary f).length = 3 ∨ (Face3D.boundary f).length = 4) :=
  ⟨by decide, mesh_to_face3d_arity triQuadMesh _ (by decide)⟩

/-- Counterexample for C5: the face record `[0, 1, 2, 3, 4]` has arity 5,
yet `mesh_to_face3d` silently emits a 3-vertex polygon from its first three
indices instead of failing with a malformed-mesh error. -/
theorem mesh_to_face3d_arity5_cex :
    (arity5Mesh.Faces.headI.length = 5) ∧
    mesh_to_face3d arity5Mesh =
      .ok [Face3D.mk [⟨0, 0, 0⟩, ⟨1, 0, 0⟩, ⟨2, 0, 0⟩] []] ∧
    (Face3D.mk [⟨0, 0, 0⟩, ⟨1, 0, 0⟩, ⟨2, 0, 0⟩] []).boundary.length = 3 := by
  refine ⟨by decide, by decide, by decide⟩

/-- Claim C4: when any brep edge reports non-linear at the tolerance,
`brep2d_to_face3d` emits the curved-edge warning and returns exactly the
meshed `brep_to_face3d` output; the result does not depend on the polyline
joiner at all (assembly is never attempted), and every polygon a successful
fallback yields is hole-free, whatever the hole configuration. -/
theorem brep2d_nonlinear_always_meshed (join join2 : JoinSegments) (brep : Brep)
    (tol : ℚ) (h : ∃ e ∈ brep.Edges, e.IsLinear tol = false) :
    brep2d_to_face3d join brep tol = ([.curvedEdges], brep_to_face3d brep) ∧
    brep2d_to_face3d join brep tol = brep2d_to_face3d join2 brep tol ∧
    ∀ l, brep_to_face3d brep = .ok l → ∀ f ∈ l, Face3D.holes f = [] := by
  refine ⟨brep2d_curved h, ?_, fun l hl f hf => brep_to_face3d_holes_nil brep l hl f hf⟩
  rw [brep2d_curved h, @brep2d_curved join2 brep tol h]

/-- Witness for C4 at a brep with one curved edge. -/
theorem brep2d_nonlinear_always_meshed_witness :
    brep2d_to_face3d joinOne curvedBrep 1 = ([.curvedEdges], brep_to_face3d curvedBrep) ∧
    brep2d_to_face3d joinOne curvedBrep 1 = brep2d_to_face3d joinTwoNear curvedBrep 1 :=
  ⟨(brep2d_nonlinear_always_meshed joinOne joinTwoNear curvedBrep 1
      ⟨curvedEdge, List.Mem.head _, rfl⟩).1,
   (brep2d_nonlinear_always_meshed joinOne joinTwoNear curvedBrep 1
      ⟨curvedEdge, List.Mem.head _, rfl⟩).2.1⟩

/-- Claim C1, amended: on a planar brep with all edges linear and more than
one assembled polyline, if a deduplicated hole-ring vertex is a member of
the deduplicated boundary ring under exact coordinate equality (the Python
`in` test the source uses), then `brep2d_to_face3d` warns and returns
exactly the meshed `brep_to_face3d` output, whose polygons are all
hole-free.  The claim's original trigger — a merely tolerance-equivalent
shared vertex — does not force the fallback (see the counterexample). -/
theorem brep2d_exact_touch_mesh_fallback (join : JoinSegments) (brep : Brep)
    (tol : ℚ) (f0 : BrepFace) (m : Mesh)
    (hlin : ∀ e ∈ brep.Edges, e.IsLinear tol = true)
    (h0 : brep.Faces.get? 0 = some f0)
    (hm : f0.GetMesh = some m)
    (hlen : 1 < (sortedPolylinesOf join brep tol).length)
    (htouch : ∃ p ∈ totalHolePtsOf join brep tol, p ∈ boundaryPtsOf join brep tol) :
    brep2d_to_face3d join brep tol = ([.holesTouchBoundary], brep_to_face3d brep) ∧
    ∀ l, brep_to_face3d brep = .ok l → ∀ f ∈ l, Face3D.holes f = [] := by
  have ht : 0 < (holePtsOnBoundaryOf join brep tol).length := by
    obtain ⟨p, hp, hpb⟩ := htouch
    have hmem : p ∈ holePtsOnBoundaryOf join brep tol := by
      rw [holePtsOnBoundaryOf]
      exact List.mem_filter.mpr ⟨hp, by simpa using hpb⟩
    exact List.length_pos.mpr (List.ne_nil_of_mem hmem)
  exact ⟨brep2d_touch hlin h0 hm hlen ht,
    fun l hl f hf => brep_to_face3d_holes_nil brep l hl f hf⟩

/-- Witness for C1 at a square brep whose hole ring shares the exact vertex
`(0, 0, 0)` with the boundary ring. -/
theorem brep2d_exact_touch_mesh_fallback_witness :
    brep2d_to_face3d joinTwoTouch holeBrep 1 =
      ([.holesTouchBoundary], brep_to_face3d holeBrep) :=
  (brep2d_exact_touch_mesh_fallback joinTwoTouch holeBrep 1 ⟨some quadMesh⟩ quadMesh
    (by intro e he; fin_cases he <;> rfl) rfl rfl (by decide) (by decide)).1

/-- Counterexample for C1: on a planar brep with all edges linear and two
assembled polylines whose deduplicated hole ring has the vertex
`(1/2, 1/2, 0)` tolerance-equivalent (tolerance 1) to the boundary vertex
`(0, 0, 0)` without being equal to any boundary vertex, `brep2d_to_face3d`
does not fall back to meshing: it returns a single `Face3D` carrying a
nonempty hole list. -/
theorem brep2d_tolerance_touch_cex :
    (∀ e ∈ holeBrep.Edges, e.IsLinear 1 = true) ∧
    1 < (sortedPolylinesOf joinTwoNear holeBrep 1).length ∧
    (∃ hp ∈ totalHolePtsOf joinTwoNear holeBrep 1,
      ∃ bp ∈ boundaryPtsOf joinTwoNear holeBrep 1,
        hp.is_equivalent bp 1 = true ∧ hp ≠ bp) ∧
    brep2d_to_face3d joinTwoNear holeBrep 1 =
      ([], .ok [Face3D.mk
        [⟨10, 0, 0⟩, ⟨10, 10, 0⟩, ⟨0, 10, 0⟩, ⟨0, 0, 0⟩]
        [[⟨mkRat 5 2, mkRat 1 2, 0⟩, ⟨mkRat 5 2, mkRat 5 2, 0⟩,
          ⟨mkRat 1 2, mkRat 5 2, 0⟩, ⟨mkRat 1 2, mkRat 1 2, 0⟩]]]) ∧
    (Face3D.mk
        [⟨10, 0, 0⟩, ⟨10, 10, 0⟩, ⟨0, 10, 0⟩, ⟨0, 0, 0⟩]
        [[⟨mkRat 5 2, mkRat 1 2, 0⟩, ⟨mkRat 5 2, mkRat 5 2, 0⟩,
          ⟨mkRat 1 2, mkRat 5 2, 0⟩, ⟨mkRat 1 2, mkRat 1 2, 0⟩]]).holes ≠ [] :=
  ⟨by intro e he; fin_cases he <;> rfl, by decide, by decide, by decide, by decide⟩

/-- Claim C3, amended: the only internal fault `brep2d_to_face3d` recovers
from is the missing tessellation on the first face (the Python
`AttributeError` on `mesh.Vertices`), and the recovery emits the non-planar
warning and returns the empty list — not mesh-derived output; any other
internal exception propagates to the caller (see the counterexample). -/
theorem brep2d_degenerate_recovery (join : JoinSegments) (brep : Brep)
    (tol : ℚ) (f0 : BrepFace)
    (hlin : ∀ e ∈ brep.Edges, e.IsLinear tol = true)
    (h0 : brep.Faces.get? 0 = some f0)
    (hm : f0.GetMesh = none) :
    brep2d_to_face3d join brep tol = ([.nonPlanarIgnored], .ok []) :=
  brep2d_nonplanar hlin h0 hm

/-- Witness for C3 at a linear-edged brep whose face has no tessellation. -/
theorem brep2d_degenerate_recovery_witness :
    brep2d_to_face3d joinOne noMeshBrep 1 = ([.nonPlanarIgnored], .ok []) :=
  brep2d_degenerate_recovery joinOne noMeshBrep 1 ⟨none⟩
    (by intro e he; fin_cases he <;> rfl) rfl rfl

/-- Counterexample for C3: two internal faults of the planar-reconstruction
sequence that are not recovered by meshing.  On a brep whose tessellation
cites an out-of-range vertex index, the fault surfaces to the caller as an
uncaught `IndexError`; and on a brep with no tessellation, the recovery
returns the empty list even though `brep_to_face3d` (the claimed
mesh-derived recovery) is not what is produced. -/
theorem brep2d_fault_not_meshed_cex :
    (∀ e ∈ badIndexBrep.Edges, e.IsLinear 1 = true) ∧
    brep2d_to_face3d joinOne badIndexBrep 1 = ([], .error .indexError) ∧
    brep2d_to_face3d joinOne noMeshBrep 1 = ([.nonPlanarIgnored], .ok []) ∧
    brep_to_face3d noMeshBrep = .error .attributeError :=
  ⟨by intro e he; fin_cases he <;> rfl, by decide, by decide, by decide⟩

/-- Claim C7: on a well-formed planar brep (nonempty face list, every face
tessellated by a well-formed mesh, polyline assembly yielding at least one
polyline), `brep2d_to_face3d` always succeeds with a nonempty result, and
the result comes from one of the three terminals: the meshed fallback
(`brep_to_face3d`), the direct mesh shortcut (`mesh_to_face3d` of the first
face's mesh), or a single reconstructed `Face3D`. -/
theorem brep2d_wellformed_nonempty (join : JoinSegments) (brep : Brep) (tol : ℚ)
    (hwf : WellFormedPlanarBrep join brep tol = true) :
    ∃ l, (brep2d_to_face3d join brep tol).2 = .ok l ∧ l ≠ [] ∧
      ((brep2d_to_face3d join brep tol).2 = brep_to_face3d brep ∨
       (∃ f0 m, brep.Faces.get? 0 = some f0 ∧ f0.GetMesh = some m ∧
         (brep2d_to_face3d join brep tol).2 = mesh_to_face3d m) ∨
       (∃ f, l = [f])) := by
  rw [WellFormedPlanarBrep] at hwf
  simp only [Bool.and_eq_true, Bool.not_eq_true', List.all_eq_true] at hwf
  obtain ⟨⟨hfe, hall⟩, hj0⟩ := hwf
  have hfne : brep.Faces ≠ [] := by
    intro h
    rw [h] at hfe
    cases hfe
  have hjoin : join (linesOf brep) tol ≠ [] := by
    intro h
    rw [h] at hj0
    cases hj0
  have hall2 : ∀ bf ∈ brep.Faces, ∃ m, bf.GetMesh = some m ∧ WellFormedMesh m = true := by
    intro bf hbf
    have hb := hall bf hbf
    cases hg : bf.GetMesh with
    | none =>
      simp only [hg] at hb
      cases hb
    | some m =>
      simp only [hg] at hb
      exact ⟨m, rfl, hb⟩
  obtain ⟨L, hL, hLne⟩ := brep_faces_ok hall2
  by_cases hc : ∃ e ∈ brep.Edges, e.IsLinear tol = false
  · refine ⟨L, ?_, hLne hfne, .inl ?_⟩
    · rw [brep2d_curved hc]
      exact hL
    · rw [brep2d_curved hc]
  · have hlin : ∀ e ∈ brep.Edges, e.IsLinear tol = true := by
      intro e he
      rcases Bool.eq_false_or_eq_true (e.IsLinear tol) with ht | hf
      · exact ht
      · exact absurd ⟨e, he, hf⟩ hc
    obtain ⟨f0, h0⟩ : ∃ f0, brep.Faces.get? 0 = some f0 := by
      have hlp : 0 < brep.Faces.length := List.length_pos.mpr hfne
      exact ⟨brep.Faces.get ⟨0, hlp⟩, List.get?_eq_get hlp⟩
    have hf0mem : f0 ∈ brep.Faces := List.get?_mem h0
    obtain ⟨m, hm, hwfm⟩ := hall2 f0 hf0mem
    have hslen : (sortedPolylinesOf join brep tol).length =
        (join (linesOf brep) tol).length := by
      rw [sortedPolylinesOf]
      exact separate_polylines_length _
    have hpos : 0 < (sortedPolylinesOf join brep tol).length := by
      rw [hslen]
      exact List.length_pos.mpr hjoin
    by_cases h1 : (sortedPolylinesOf join brep tol).length = 1
    · by_cases hmp : (m.Vertices.map to_point3d).length = 4 ∨
          (m.Vertices.map to_point3d).length = 3
      · obtain ⟨lm, hlm, hlmne, _⟩ := mesh_to_face3d_wf hwfm
        refine ⟨lm, ?_, hlmne, .inr (.inl ⟨f0, m, h0, hm, ?_⟩)⟩
        · rw [brep2d_single_mesh hlin h0 hm h1 hmp]
          exact hlm
        · rw [brep2d_single_mesh hlin h0 hm h1 hmp]
      · refine ⟨[Face3D.mk (boundaryPtsOf join brep tol) []], ?_, by simp,
          .inr (.inr ⟨_, rfl⟩)⟩
        rw [brep2d_single_face hlin h0 hm h1 hmp]
    · have hgt : 1 < (sortedPolylinesOf join brep tol).length := by omega
      by_cases ht : 0 < (holePtsOnBoundaryOf join brep tol).length
      · refine ⟨L, ?_, hLne hfne, .inl ?_⟩
        · rw [brep2d_touch hlin h0 hm hgt ht]
          exact hL
        · rw [brep2d_touch hlin h0 hm hgt ht]
      · refine ⟨[Face3D.mk (boundaryPtsOf join brep tol) (holePtsOf join brep tol)],
          ?_, by simp, .inr (.inr ⟨_, rfl⟩)⟩
        rw [brep2d_notouch hlin h0 hm hgt ht]

/-- Witness for C7 at a well-formed triangular planar brep. -/
theorem brep2d_wellformed_nonempty_witness :
    WellFormedPlanarBrep joinOne triBrep 1 = true ∧
    ∃ l, (brep2d_to_face3d joinOne triBrep 1).2 = .ok l ∧ l ≠ [] ∧
      ((brep2d_to_face3d joinOne triBrep 1).2 = brep_to_face3d triBrep ∨
       (∃ f0 m, triBrep.Faces.get? 0 = some f0 ∧ f0.GetMesh = some m ∧
         (brep2d_to_face3d joinOne triBrep 1).2 = mesh_to_face3d m) ∨
       (∃ f, l = [f])) :=
  ⟨by decide, brep2d_wellformed_nonempty joinOne triBrep 1 (by decide)⟩

/-- Claim C8: for an object whose geometry kind is not brep, extrusion or
mesh, `to_face3d` raises `ValueError` when `raise_exception` is true, and
warns and returns the empty list when it is false; for supported kinds the
dispatcher never produces this error. -/
theorem to_face3d_unsupported_policy (join : JoinSegments) (obj : RhObject)
    (tol : ℚ) (raise_exception : Bool) :
    (SupportedKind obj.Geometry.ObjectType = false →
      to_face3d join obj tol true = ([], .error .valueError) ∧
      to_face3d join obj tol false =
        ([.unsupportedType obj.Geometry.ObjectType], .ok [])) ∧
    (SupportedKind obj.Geometry.ObjectType = true →
      (to_face3d join obj tol raise_exception).2 ≠ .error .valueError) := by
  obtain ⟨g⟩ := obj
  cases g with
  | brep b isSolid =>
    refine ⟨fun h => (nomatch h), fun _ => ?_⟩
    show ((if isSolid then ([], solid_to_face3d b)
      else brep2d_to_face3d join b tol).2 ≠ .error .valueError)
    cases isSolid
    · rw [if_neg (by simp)]
      exact brep2d_ne_valueError join b tol
    · rw [if_pos rfl]
      exact solid_ne_valueError b
  | extrusion e =>
    exact ⟨fun h => (nomatch h), fun _ => extrusion_ne_valueError e⟩
  | mesh m =>
    exact ⟨fun h => (nomatch h), fun _ => mesh_ne_valueError m⟩
  | point =>
    exact ⟨fun _ => ⟨rfl, rfl⟩, fun h => nomatch h⟩
  | curve =>
    exact ⟨fun _ => ⟨rfl, rfl⟩, fun h => nomatch h⟩
  | light =>
    exact ⟨fun _ => ⟨rfl, rfl⟩, fun h => nomatch h⟩

/-- Witness for C8 at an unsupported point object under both policies. -/
theorem to_face3d_unsupported_policy_witness :
    to_face3d joinOne pointObj 1 true = ([], .error .valueError) ∧
    to_face3d joinOne pointObj 1 false =
      ([.unsupportedType ObjectType.Point], .ok []) :=
  (to_face3d_unsupported_policy joinOne pointObj 1 true).1 (by decide)
